import Mathlib

/-!
# Verification of the ShellCheck linter plugin (`linter.py`)

A shallow embedding of the CudaText ShellCheck linter adapter:
executable discovery (`ShellCheck._find_executable`), config loading
(`_load_config`, `_read_config_file`, `_parse_and_validate_codes`),
command construction (`_build_cmd`), constructor state (`__init__`),
the temp-file suffix override (`tmpfile`) and the config-file-open
menu command (`Command.config`).

Python strings are modelled as Lean `String` (sequences of Unicode
code points); Python values that may appear in a parsed JSON document
are modelled by the inductive `JVal`.  Host and interpreter effects
(filesystem, `shutil.which`, the `__file__` global, `json.loads`) are
passed in explicitly as environment parameters, and exceptions are
modelled with `Except`.
-/

namespace ShellCheckPlugin

/-! ## Python string primitives used by the source -/

/-- Python `str.startswith(pre)`: `pre` is a prefix of `s` (by code points). -/
def pyStartsWith (s pre : String) : Bool :=
  pre.toList.isPrefixOf s.toList

/-- Python slice `s[n:]` (by code points). -/
def pyDrop (s : String) (n : Nat) : String :=
  String.mk (s.toList.drop n)

/-- Whether a character is whitespace for Python `str.strip()` (the ASCII
whitespace characters; Python also strips other Unicode whitespace, which
never occurs in the inputs considered here). -/
def pyIsSpace (c : Char) : Bool :=
  c = ' ' || c = '\t' || c = '\n' || c = '\x0d' || c = '\x0b' || c = '\x0c'

/-- Python `str.strip()`: remove leading and trailing whitespace. -/
def pyStrip (s : String) : String :=
  String.mk (((s.toList.dropWhile pyIsSpace).reverse.dropWhile pyIsSpace).reverse)

/-- Models the Python test `str.isdigit` on a single character, on the code-point
ranges exercised in this development.  The Python test `str.isdigit` accepts every
character whose Unicode property `Numeric_Type` is `Digit` or `Decimal`; in
particular it accepts not only ASCII `0`-`9` but also, among others, the
superscripts U+00B9/U+00B2/U+00B3 and the Arabic-Indic, Extended Arabic-Indic,
Devanagari and fullwidth decimal digits. -/
def pyCharIsDigit (c : Char) : Bool :=
  (48 ≤ c.toNat && c.toNat ≤ 57)              -- ASCII digits 0-9
  || c.toNat = 0xB9 || c.toNat = 0xB2 || c.toNat = 0xB3  -- superscript 1, 2, 3
  || (0x660 ≤ c.toNat && c.toNat ≤ 0x669)     -- Arabic-Indic digits
  || (0x6F0 ≤ c.toNat && c.toNat ≤ 0x6F9)     -- Extended Arabic-Indic digits
  || (0x966 ≤ c.toNat && c.toNat ≤ 0x96F)     -- Devanagari digits
  || (0xFF10 ≤ c.toNat && c.toNat ≤ 0xFF19)   -- fullwidth digits

/-- Python `str.isdigit()`: non-empty and every character is a digit. -/
def pyStrIsDigit (s : String) : Bool :=
  !s.toList.isEmpty && s.toList.all pyCharIsDigit

/-! ## JSON values (results of `json.loads`) -/

/-- A parsed JSON document, as produced by the Python function `json.loads`:
`null`, booleans, numbers, strings, arrays and objects. -/
inductive JVal where
  | null : JVal
  | bool (b : Bool) : JVal
  | num (n : Int) : JVal
  | str (s : String) : JVal
  | arr (xs : List JVal) : JVal
  | obj (fields : List (String × JVal)) : JVal

/-- Whether a JSON value is the string `s` (used to count occurrences of a
code inside a parsed array without a full decidable equality on `JVal`). -/
def JVal.isStr (s : String) : JVal → Bool
  | JVal.str t => t = s
  | _ => false

/-- `dict.get(key, default)` on the field list of a JSON object
(keys of a Python dict are unique, so first match suffices). -/
def JVal.getField (fields : List (String × JVal)) (key : String) (dflt : JVal) : JVal :=
  match fields.find? (fun kv => kv.1 = key) with
  | some kv => kv.2
  | none => dflt

/-! ## `_parse_and_validate_codes` (src/linter.py lines 117-150) -/

/-- The per-entry test of linter.py line 135:
`isinstance(c, str) and c.startswith("SC") and c[2:].isdigit()`. -/
def isValidCode (s : String) : Bool :=
  pyStartsWith s "SC" && pyStrIsDigit (pyDrop s 2)

/-- The list comprehension of linter.py line 135: keep exactly the array
entries that are strings passing `isValidCode`, in order. -/
def validateCodes (codes : List JVal) : List String :=
  codes.filterMap (fun c =>
    match c with
    | JVal.str s => if isValidCode s then some s else none
    | _ => none)

/-- `ShellCheck._parse_and_validate_codes` (linter.py lines 117-150), with the
outcome of `json.loads(content)` passed in: `none` models a raised
`json.JSONDecodeError` (the only exception `json.loads` raises on a string),
which the source catches and turns into `[]`.  A non-object document or a
non-array `ignore_codes` value also yields `[]`. -/
def parseAndValidateCodes (parsed : Option JVal) : List String :=
  match parsed with
  | none => []
  | some config =>
    match config with
    | JVal.obj fields =>
      match JVal.getField fields "ignore_codes" (JVal.arr []) with
      | JVal.arr codes => validateCodes codes
      | _ => []
    | _ => []

/-! ## `_read_config_file` (src/linter.py lines 95-115) -/

/-- The line filter of linter.py lines 100/107: keep a physical line iff its
stripped form is non-empty and does not start with `//` or `#`. -/
def keepLine (ln : String) : Bool :=
  let s := pyStrip ln
  !(s.toList.isEmpty) && !(pyStartsWith s "//" || pyStartsWith s "#")

/-- `ShellCheck._read_config_file` on a successfully decoded file, given as its
list of physical lines (as Python file iteration yields them, trailing
newlines included): `"".join(kept lines).strip()`. -/
def readConfigContent (lines : List String) : String :=
  pyStrip (String.join (lines.filter keepLine))

/-! ## `_load_config` (src/linter.py lines 79-93) -/

/-- `ShellCheck._load_config`, with the environment passed in explicitly:
whether the config file exists, the result of `_read_config_file` (`none`
models a caught read failure that returned `None`), and the JSON parser
(`none` models a `json.JSONDecodeError`). -/
def loadConfig (fileExists : Bool) (readResult : Option String)
    (parse : String → Option JVal) : List String :=
  if !fileExists then []
  else
    match readResult with
    | none => []
    | some content =>
      if content.toList.isEmpty then []
      else parseAndValidateCodes (parse content)

/-! ## `_build_cmd` (src/linter.py lines 152-160) -/

/-- `ShellCheck._build_cmd`: start from `[path, "-f", "gcc", "-"]` and extend
with `["-e", code]` for each ignore code, in order (the source builds a list
with a `for` loop, i.e. a left fold, and returns it as a tuple). -/
def buildCmd (path : String) (codes : List String) : List String :=
  codes.foldl (fun cmd code => cmd ++ ["-e", code]) [path, "-f", "gcc", "-"]

/-! ## POSIX path primitives (`os.path` on a POSIX host) -/

/-- Python `str.rfind(c)` restricted to single characters: index of the last
occurrence, `none` when absent (Python returns `-1`). -/
def lastIndexOf : List Char → Char → Option Nat
  | [], _ => none
  | c :: cs, t =>
    match lastIndexOf cs t with
    | some k => some (k + 1)
    | none => if c = t then some 0 else none

/-- `posixpath.dirname`: everything before the last `/`; a head consisting of
separators only is kept as is, otherwise trailing separators are stripped. -/
def pyDirname (p : String) : String :=
  let cs := p.toList
  let i := match lastIndexOf cs '/' with
    | none => 0
    | some k => k + 1
  let head := cs.take i
  if !head.isEmpty && !(head.all (fun c => c = '/')) then
    String.mk (head.reverse.dropWhile (fun c => c = '/')).reverse
  else
    String.mk head

/-- `posixpath.join` on two components: an absolute second component replaces
the path; otherwise a `/` is inserted unless the path is empty or already ends
in `/`. -/
def pyJoin2 (path b : String) : String :=
  if pyStartsWith b "/" then b
  else if path.toList.isEmpty || path.toList.getLast? = some '/' then path ++ b
  else path ++ "/" ++ b

/-- `posixpath.splitext` via the generic `_splitext` algorithm: split at the
last `.` that lies after the last `/` and after at least one non-`.` character
of the base name (so dotfiles such as `.bashrc` have no extension). -/
def pySplitext (p : String) : String × String :=
  let cs := p.toList
  let start := match lastIndexOf cs '/' with
    | none => 0
    | some si => si + 1
  match lastIndexOf cs '.' with
  | none => (p, "")
  | some d =>
    if start ≤ d && (List.range' start (d - start)).any (fun i => !(cs.get? i = some '.')) then
      (String.mk (cs.take d), String.mk (cs.drop d))
    else (p, "")

/-! ## `_find_executable` (src/linter.py lines 56-77) -/

/-- The Python exception classes relevant to the `try` block of `_find_executable`:
the source catches exactly `NameError` and `AttributeError`. -/
inductive PyExc where
  | nameError : PyExc
  | attributeError : PyExc
  | typeError : PyExc
  | otherError : PyExc
  deriving DecidableEq

/-- The state of the `__file__` global of the plugin module: undefined (looking it
up raises `NameError`), bound to `None` (as for namespace packages;
`os.path.dirname(None)` then raises `TypeError`), or bound to a path string. -/
inductive FileGlobal where
  | undef : FileGlobal
  | pyNone : FileGlobal
  | path (p : String) : FileGlobal

/-- The environment `_find_executable` consults: the result of
`shutil.which("shellcheck")`, the `__file__` global, `os.name`, and the
`os.path.isfile` predicate (which itself never raises: it swallows `OSError`
and `ValueError` and reports `False`). -/
structure LocEnv where
  whichResult : Option String
  fileGlobal : FileGlobal
  osName : String
  isfile : String → Bool

/-- The body of the `try` block of linter.py lines 64-67: compute the bundled
path `join(dirname(dirname(dirname(__file__))), "ShellCheck", exe)`, or raise. -/
def computeBundled (env : LocEnv) : Except PyExc String :=
  match env.fileGlobal with
  | FileGlobal.undef => Except.error PyExc.nameError
  | FileGlobal.pyNone => Except.error PyExc.typeError
  | FileGlobal.path f =>
    let base := pyDirname (pyDirname (pyDirname f))
    let exe := if env.osName = "nt" then "shellcheck.exe" else "shellcheck"
    Except.ok (pyJoin2 (pyJoin2 base "ShellCheck") exe)

/-- The bundled-version fallback of `_find_executable` (linter.py lines 63-77):
the `try`/`except (NameError, AttributeError)` block followed by `return None`.
Exceptions other than the two caught classes propagate. -/
def tryBundled (env : LocEnv) : Except PyExc (Option String) :=
  match computeBundled env with
  | Except.ok bundled =>
    if env.isfile bundled then Except.ok (some bundled) else Except.ok none
  | Except.error e =>
    match e with
    | PyExc.nameError => Except.ok none
    | PyExc.attributeError => Except.ok none
    | _ => Except.error e

/-- `ShellCheck._find_executable` (linter.py lines 56-77): a truthy
`shutil.which` result wins immediately; otherwise fall back to the bundled
version. -/
def findExecutable (env : LocEnv) : Except PyExc (Option String) :=
  match env.whichResult with
  | some p => if !p.toList.isEmpty then Except.ok (some p) else tryBundled env
  | none => tryBundled env

/-! ## `__init__` (src/linter.py lines 36-54) -/

/-- The class-level default of `ShellCheck.executable` (linter.py line 23). -/
def classExecutable : String := "shellcheck"

/-- The class-level default of `ShellCheck.cmd` (linter.py line 24). -/
def classCmd : List String := ["shellcheck", "-f", "gcc", "-"]

/-- The adapter state after `ShellCheck.__init__`: the resolved path, the
loaded ignore codes, the `executable` and `cmd` attributes visible to the host
(instance attributes when set, else the class defaults), and whether
`_build_cmd` was invoked during construction. -/
structure LinterState where
  shellcheckPath : Option String
  ignoreCodes : List String
  executable : String
  cmd : List String
  builtCmd : Bool

/-- `ShellCheck.__init__` (linter.py lines 36-54), with the value returned by
`_find_executable` and the value `_load_config` would return passed in.  A
falsy path (`None`, modelled as `none`, or an empty string) takes the early
`return` of line 44: the ignore set is forced empty, `_load_config` and
`_build_cmd` are not called, and `executable`/`cmd` keep the class defaults. -/
def initLinter (findResult : Option String) (loadedCodes : List String) : LinterState :=
  match findResult with
  | none =>
    { shellcheckPath := none, ignoreCodes := [],
      executable := classExecutable, cmd := classCmd, builtCmd := false }
  | some p =>
    if p.toList.isEmpty then
      { shellcheckPath := some p, ignoreCodes := [],
        executable := classExecutable, cmd := classCmd, builtCmd := false }
    else
      { shellcheckPath := some p, ignoreCodes := loadedCodes,
        executable := p, cmd := buildCmd p loadedCodes, builtCmd := true }

/-! ## `tmpfile` (src/linter.py lines 169-172) -/

/-- The suffix `ShellCheck.tmpfile` passes to the framework method `tmpfile`:
`os.path.splitext(self.filename)[1] or ".sh"`. -/
def tmpfileSuffix (filename : String) : String :=
  let ext := (pySplitext filename).2
  if ext.toList.isEmpty then ".sh" else ext

/-! ## `Command.config` (src/linter.py lines 178-210) -/

/-- `Command.DEFAULT_CONFIG` (linter.py lines 178-184) as the JSON document
`json.dump` serializes: an object whose `ignore_codes` array holds the three
example codes (their rationale lives in source comments, which `json.dump`
cannot emit). -/
def defaultConfig : JVal :=
  JVal.obj [("ignore_codes",
    JVal.arr [JVal.str "SC2034", JVal.str "SC2154", JVal.str "SC2086"])]

/-- The observable host/filesystem actions `Command.config` can take. -/
inductive CfgEvent where
  | madeDirs (d : String) : CfgEvent
  | wroteDefault (doc : JVal) : CfgEvent
  | errorDialog : CfgEvent
  | openedFile (p : String) : CfgEvent

/-- `Command.config` (linter.py lines 194-210) as the trace of its actions,
given the config path and which steps of the creation block succeed: an
existing file is opened directly; otherwise `makedirs`/write failures raise
inside the `try`, are caught, show the error dialog, and `return` before
`file_open`; a successful creation writes `DEFAULT_CONFIG` and opens the
file. -/
def commandConfig (path : String) (fileExists mkdirsOk writeOk : Bool) : List CfgEvent :=
  if fileExists then [CfgEvent.openedFile path]
  else if !mkdirsOk then [CfgEvent.errorDialog]
  else if !writeOk then [CfgEvent.madeDirs (pyDirname path), CfgEvent.errorDialog]
  else [CfgEvent.madeDirs (pyDirname path), CfgEvent.wroteDefault defaultConfig,
        CfgEvent.openedFile path]

/-! ## Spec-side definitions (written from the wording of the specification,
to be compared with the definitions translated from the source) -/

/-- Whether a JSON value is an object. -/
def JVal.isObj : JVal → Bool
  | JVal.obj _ => true
  | _ => false

/-- Whether a JSON value is an array. -/
def JVal.isArr : JVal → Bool
  | JVal.arr _ => true
  | _ => false

/-- An ASCII digit `0`-`9`. -/
def isAsciiDigit (c : Char) : Bool :=
  48 ≤ c.toNat && c.toNat ≤ 57

/-- The per-entry validation rule exactly as the specification words it: keep
an entry iff it is a string matching `^SC[0-9]+$` — an uppercase `SC` prefix
followed by one or more ASCII digits and nothing else. -/
def specAsciiKeep : JVal → Option String
  | JVal.str s =>
    if pyStartsWith s "SC" && !(pyDrop s 2).toList.isEmpty
        && (pyDrop s 2).toList.all isAsciiDigit then
      some s
    else none
  | _ => none

/-- The per-entry validation rule as the amended claim words it: keep an entry
iff it is a string with uppercase prefix `SC` whose remainder is non-empty and
consists entirely of characters accepted by the Python `str.isdigit` test
(which also accepts non-ASCII digit characters). -/
def amendedKeep : JVal → Option String
  | JVal.str s =>
    if pyStartsWith s "SC" && !(pyDrop s 2).toList.isEmpty
        && (pyDrop s 2).toList.all pyCharIsDigit then
      some s
    else none
  | _ => none

/-- The line filter as the specification words it: a line whose trimmed
content begins with `//` or with `#` is discarded, a blank line is discarded,
every other line is kept. -/
def specKeepLine (ln : String) : Bool :=
  let t := pyStrip ln
  if pyStartsWith t "//" || pyStartsWith t "#" then false
  else if t.toList.isEmpty then false
  else true

/-! ## Helper lemmas -/

/-- A string has an empty character list exactly when it is the empty string. -/
theorem toList_isEmpty_iff (s : String) : s.toList.isEmpty = true ↔ s = "" := by
  rw [String.ext_iff]
  exact List.isEmpty_iff

/-- Unrolling the `for` loop of `_build_cmd`: folding the extension step over
the code list appends one `["-e", code]` pair per code to the accumulator. -/
theorem foldl_extend_pairs (codes : List String) (init : List String) :
    codes.foldl (fun cmd code => cmd ++ ["-e", code]) init
      = init ++ codes.flatMap (fun code => ["-e", code]) := by
  induction codes generalizing init with
  | nil => simp
  | cons c cs ih => simp [ih]

/-- The validated code list, re-read as JSON strings, is a sublist of the
source array: entries survive in their original order. -/
theorem validateCodes_map_str_sublist (arr : List JVal) :
    (((validateCodes arr).map JVal.str)).Sublist arr := by
  induction arr with
  | nil => simp [validateCodes]
  | cons v vs ih =>
    cases v with
    | str s =>
      by_cases h : isValidCode s = true
      · simpa [validateCodes, List.filterMap_cons, h] using ih.cons₂ (JVal.str s)
      · simpa [validateCodes, List.filterMap_cons, h] using ih.cons (JVal.str s)
    | null => simpa [validateCodes, List.filterMap_cons] using ih.cons JVal.null
    | bool b => simpa [validateCodes, List.filterMap_cons] using ih.cons (JVal.bool b)
    | num n => simpa [validateCodes, List.filterMap_cons] using ih.cons (JVal.num n)
    | arr xs => simpa [validateCodes, List.filterMap_cons] using ih.cons (JVal.arr xs)
    | obj fs => simpa [validateCodes, List.filterMap_cons] using ih.cons (JVal.obj fs)

/-- Unfolding `validateCodes` one entry at a time. -/
theorem validateCodes_cons (v : JVal) (vs : List JVal) :
    validateCodes (v :: vs)
      = (match v with
          | JVal.str s => if isValidCode s then [s] else []
          | _ => []) ++ validateCodes vs := by
  cases v with
  | str s =>
    by_cases h : isValidCode s = true
    · simp [validateCodes, List.filterMap_cons, h]
    · simp [validateCodes, List.filterMap_cons, h]
  | null => simp [validateCodes, List.filterMap_cons]
  | bool b => simp [validateCodes, List.filterMap_cons]
  | num n => simp [validateCodes, List.filterMap_cons]
  | arr xs => simp [validateCodes, List.filterMap_cons]
  | obj fs => simp [validateCodes, List.filterMap_cons]

/-- Occurrence counting through validation: a valid code appears in the
validated list as often as it appears (as a JSON string) in the source
array. -/
theorem validateCodes_count (arr : List JVal) (c : String)
    (hc : isValidCode c = true) :
    (validateCodes arr).count c = arr.countP (JVal.isStr c) := by
  induction arr with
  | nil => rfl
  | cons v vs ih =>
    cases v with
    | str s =>
      by_cases h : isValidCode s = true
      · by_cases hs : s = c
        · subst hs
          simp [validateCodes_cons, h, List.count_cons, JVal.isStr, List.countP_cons, ih]
        · simp [validateCodes_cons, h, List.count_cons, hs, JVal.isStr, List.countP_cons, ih]
      · have hs : s ≠ c := fun hsc => h (hsc ▸ hc)
        simp [validateCodes_cons, h, JVal.isStr, List.countP_cons, hs, ih]
    | null => simp [validateCodes_cons, JVal.isStr, List.countP_cons, ih]
    | bool b => simp [validateCodes_cons, JVal.isStr, List.countP_cons, ih]
    | num n => simp [validateCodes_cons, JVal.isStr, List.countP_cons, ih]
    | arr xs => simp [validateCodes_cons, JVal.isStr, List.countP_cons, ih]
    | obj fs => simp [validateCodes_cons, JVal.isStr, List.countP_cons, ih]

/-! ## Claim theorems -/

/-- C1 (counterexample): the claim that every entry containing non-ASCII digit
characters is dropped is false.  The entry `"SC²"` (U+00B2, a character the
Python `str.isdigit` test accepts although it is not an ASCII digit, so the
entry does not match `^SC[0-9]+$`) is retained by `_parse_and_validate_codes`. -/
theorem c1_nonascii_digit_counterexample :
    validateCodes [JVal.str "SC²"] = ["SC²"]
      ∧ specAsciiKeep (JVal.str "SC²") = none := by
  refine ⟨?_, ?_⟩ <;> rfl

/-- C1 (amended): the config loader keeps exactly those entries of the
`ignore_codes` array that are strings with uppercase prefix `SC` whose
remainder is non-empty and consists entirely of characters accepted by the
Python `str.isdigit` test (ASCII digits, but also non-ASCII digit characters
such as superscripts); entries that are not strings, lack the prefix, have a
lowercase prefix, or have any non-digit character after the prefix are
dropped, and the kept entries appear in source order. -/
theorem c1_validate_codes_amended (codes : List JVal) :
    validateCodes codes = codes.filterMap amendedKeep := by
  unfold validateCodes
  congr 1
  funext v
  cases v with
  | str s => simp [amendedKeep, isValidCode, pyStrIsDigit, Bool.and_assoc]
  | null => rfl
  | bool b => rfl
  | num n => rfl
  | arr xs => rfl
  | obj fs => rfl

/-- C2 (counterexample): the claim that every exception raised while computing
the bundled-executable path is caught is false.  The source catches only
`NameError` and `AttributeError`; in an environment where the search-path
lookup fails and the `__file__` global is bound to `None` (as for namespace
packages), `os.path.dirname(None)` raises `TypeError`, which propagates out of
`_find_executable`. -/
theorem c2_uncaught_exception_counterexample :
    findExecutable ⟨none, FileGlobal.pyNone, "posix", fun _ => false⟩
      = Except.error PyExc.typeError := rfl

/-- C2 (amended): exceptions of class `NameError` or `AttributeError` raised
while computing the bundled-executable path are caught inside the locator,
logged as a warning, and treated as not found: whenever the bundled-path
computation fails with one of these two classes, the locator returns a path or
an absent value and propagates no exception. -/
theorem c2_find_executable_catches (env : LocEnv) (e : PyExc)
    (hb : computeBundled env = Except.error e)
    (he : e = PyExc.nameError ∨ e = PyExc.attributeError) :
    ∃ r : Option String, findExecutable env = Except.ok r := by
  have hcatch : tryBundled env = Except.ok none := by
    unfold tryBundled
    rw [hb]
    rcases he with rfl | rfl <;> rfl
  unfold findExecutable
  cases hw : env.whichResult with
  | none => exact ⟨none, hcatch⟩
  | some p =>
    show ∃ r, (if !p.toList.isEmpty then Except.ok (some p) else tryBundled env)
        = Except.ok r
    cases hp : p.toList.isEmpty with
    | false => exact ⟨some p, rfl⟩
    | true => exact ⟨none, hcatch⟩

/-- C2 (witness): in an environment with no search-path hit and an undefined
`__file__` global, the bundled computation raises `NameError` and the locator
still returns without exception. -/
theorem c2_find_executable_catches_witness :
    ∃ r : Option String,
      findExecutable ⟨none, FileGlobal.undef, "posix", fun _ => false⟩
        = Except.ok r :=
  c2_find_executable_catches ⟨none, FileGlobal.undef, "posix", fun _ => false⟩
    PyExc.nameError rfl (Or.inl rfl)

/-- C3: `_build_cmd` is a pure function of the executable path and the
ignore-code sequence, and for every path `p` and code list the built command
is exactly `[p, "-f", "gcc", "-"]` followed by one `["-e", code]` pair per
code, in the order the codes appear. -/
theorem c3_build_cmd_shape (p : String) (codes : List String) :
    buildCmd p codes
      = [p, "-f", "gcc", "-"] ++ codes.flatMap (fun code => ["-e", code]) :=
  foldl_extend_pairs codes [p, "-f", "gcc", "-"]

/-- C4: the config loader is a total function (no exception reaches the
caller); a failed JSON parse, a parsed document that is not an object, and an
`ignore_codes` value that is not an array each yield the empty sequence. -/
theorem c4_load_config_robust (parse : String → Option JVal) (content : String) :
    (parse content = none → loadConfig true (some content) parse = [])
  ∧ (∀ v, parse content = some v → v.isObj = false →
      loadConfig true (some content) parse = [])
  ∧ (∀ fields, parse content = some (JVal.obj fields) →
      (JVal.getField fields "ignore_codes" (JVal.arr [])).isArr = false →
      loadConfig true (some content) parse = []) := by
  have hload : parseAndValidateCodes (parse content) = [] →
      loadConfig true (some content) parse = [] := by
    intro hnil
    show (if content.toList.isEmpty then [] else parseAndValidateCodes (parse content)) = []
    cases hc : content.toList.isEmpty with
    | true => rfl
    | false => rw [hnil]; simp
  refine ⟨?_, ?_, ?_⟩
  · intro hp
    refine hload ?_
    rw [hp]
    rfl
  · intro v hp hv
    refine hload ?_
    rw [hp]
    cases v with
    | obj fs => simp [JVal.isObj] at hv
    | null => rfl
    | bool b => rfl
    | num n => rfl
    | str s => rfl
    | arr xs => rfl
  · intro fields hp ha
    refine hload ?_
    rw [hp]
    simp only [parseAndValidateCodes]
    cases hg : JVal.getField fields "ignore_codes" (JVal.arr []) with
    | arr xs => rw [hg] at ha; simp [JVal.isArr] at ha
    | null => rfl
    | bool b => rfl
    | num n => rfl
    | str s => rfl
    | obj fs => rfl

/-- C4 (witness): concrete bad inputs — unparseable content, a top-level
array, and a string-valued `ignore_codes` — each load as the empty sequence. -/
theorem c4_load_config_robust_witness :
    loadConfig true (some "not json") (fun _ => none) = []
  ∧ loadConfig true (some "[1]") (fun _ => some (JVal.arr [JVal.num 1])) = []
  ∧ loadConfig true (some "{...}")
      (fun _ => some (JVal.obj [("ignore_codes", JVal.str "SC2034")])) = [] :=
  ⟨(c4_load_config_robust (fun _ => none) "not json").1 rfl,
   (c4_load_config_robust (fun _ => some (JVal.arr [JVal.num 1])) "[1]").2.1
     (JVal.arr [JVal.num 1]) rfl rfl,
   (c4_load_config_robust (fun _ => some (JVal.obj [("ignore_codes", JVal.str "SC2034")]))
     "{...}").2.2 [("ignore_codes", JVal.str "SC2034")] rfl rfl⟩

/-- C5: when the executable locator returns absent, construction reaches the
disabled state: the ignore-code set is forced empty, `_build_cmd` is never
invoked, and `__init__` completes normally (the embedding is a total
function). -/
theorem c5_disabled_state (loadedCodes : List String) :
    (initLinter none loadedCodes).ignoreCodes = []
  ∧ (initLinter none loadedCodes).builtCmd = false
  ∧ (initLinter none loadedCodes).shellcheckPath = none := by
  refine ⟨rfl, rfl, rfl⟩

/-- C6: `_read_config_file` discards exactly the lines whose trimmed content
begins with `//` or `#` and the blank lines, and concatenates the remaining
lines without inserting any separator (the concatenation is finally stripped
of outer whitespace) before the result is handed to the JSON parser. -/
theorem c6_comment_stripping (lines : List String) :
    readConfigContent lines = pyStrip (String.join (lines.filter specKeepLine)) := by
  have h : keepLine = specKeepLine := by
    funext ln
    simp only [keepLine, specKeepLine]
    cases ha : pyStartsWith (pyStrip ln) "//" <;>
      cases hb : pyStartsWith (pyStrip ln) "#" <;>
        cases he : (pyStrip ln).toList.isEmpty <;> simp
  unfold readConfigContent
  rw [h]

/-- C7: the config-file-open action opens an existing config file directly;
when the file is absent it creates the settings directory, writes the default
document whose `ignore_codes` array holds exactly the three example codes
`SC2034`, `SC2154`, `SC2086` (all valid), and then opens the file; and when
directory creation or the write fails it shows the error dialog and never
requests the host to open the file. -/
theorem c7_config_command (path : String) (mk w : Bool) :
    commandConfig path true mk w = [CfgEvent.openedFile path]
  ∧ commandConfig path false true true
      = [CfgEvent.madeDirs (pyDirname path), CfgEvent.wroteDefault defaultConfig,
         CfgEvent.openedFile path]
  ∧ parseAndValidateCodes (some defaultConfig) = ["SC2034", "SC2154", "SC2086"]
  ∧ (CfgEvent.errorDialog ∈ commandConfig path false false w
      ∧ CfgEvent.openedFile path ∉ commandConfig path false false w)
  ∧ (CfgEvent.errorDialog ∈ commandConfig path false true false
      ∧ CfgEvent.openedFile path ∉ commandConfig path false true false) := by
  refine ⟨rfl, rfl, rfl, ⟨?_, ?_⟩, ⟨?_, ?_⟩⟩
  · simp [commandConfig]
  · simp [commandConfig]
  · simp [commandConfig]
  · simp [commandConfig]

/-- C7 (witness): the branch behavior at a concrete settings path. -/
theorem c7_config_command_witness :
    commandConfig "/settings/shellcheck_config.json" true true true
      = [CfgEvent.openedFile "/settings/shellcheck_config.json"]
  ∧ commandConfig "/settings/shellcheck_config.json" false true true
      = [CfgEvent.madeDirs (pyDirname "/settings/shellcheck_config.json"),
         CfgEvent.wroteDefault defaultConfig,
         CfgEvent.openedFile "/settings/shellcheck_config.json"]
  ∧ parseAndValidateCodes (some defaultConfig) = ["SC2034", "SC2154", "SC2086"]
  ∧ (CfgEvent.errorDialog ∈ commandConfig "/settings/shellcheck_config.json" false false true
      ∧ CfgEvent.openedFile "/settings/shellcheck_config.json"
          ∉ commandConfig "/settings/shellcheck_config.json" false false true)
  ∧ (CfgEvent.errorDialog ∈ commandConfig "/settings/shellcheck_config.json" false true false
      ∧ CfgEvent.openedFile "/settings/shellcheck_config.json"
          ∉ commandConfig "/settings/shellcheck_config.json" false true false) :=
  c7_config_command "/settings/shellcheck_config.json" true true

/-- C8: the temp-file suffix chosen by `tmpfile` is the extension of the
original filename whenever that extension is non-empty, and the fixed
shell-script suffix `.sh` otherwise; it is a function of the filename alone. -/
theorem c8_tmpfile_suffix (filename : String) :
    ((pySplitext filename).2 ≠ "" → tmpfileSuffix filename = (pySplitext filename).2)
  ∧ ((pySplitext filename).2 = "" → tmpfileSuffix filename = ".sh") := by
  constructor
  · intro h
    have he : (pySplitext filename).2.toList.isEmpty = false := by
      cases hb : (pySplitext filename).2.toList.isEmpty with
      | false => rfl
      | true => exact absurd ((toList_isEmpty_iff _).mp hb) h
    show (if (pySplitext filename).2.toList.isEmpty then ".sh"
          else (pySplitext filename).2) = (pySplitext filename).2
    rw [he]
    simp
  · intro h
    have he : (pySplitext filename).2.toList.isEmpty = true :=
      (toList_isEmpty_iff _).mpr h
    show (if (pySplitext filename).2.toList.isEmpty then ".sh"
          else (pySplitext filename).2) = ".sh"
    rw [he]
    simp

/-- C8 (witness): a filename with an extension keeps it; one without gets
`.sh`. -/
theorem c8_tmpfile_suffix_witness :
    tmpfileSuffix "script.bash" = ".bash" ∧ tmpfileSuffix "script" = ".sh" :=
  ⟨(c8_tmpfile_suffix "script.bash").1 (by decide),
   (c8_tmpfile_suffix "script").2 (by decide)⟩

/-- C9: in the disabled state the `executable` and `cmd` attributes still
expose the class-level defaults `shellcheck` and
`("shellcheck", "-f", "gcc", "-")`, while a successful construction (locator
returned a truthy path `p`) overwrites them with `p` and the built command. -/
theorem c9_attribute_defaults (codes : List String) (p : String) (hp : p ≠ "") :
    ((initLinter none codes).executable = classExecutable
      ∧ (initLinter none codes).cmd = classCmd)
  ∧ ((initLinter (some p) codes).executable = p
      ∧ (initLinter (some p) codes).cmd = buildCmd p codes) := by
  have he : p.toList.isEmpty = false := by
    cases hb : p.toList.isEmpty with
    | false => rfl
    | true => exact absurd ((toList_isEmpty_iff _).mp hb) hp
  have hi : initLinter (some p) codes =
      { shellcheckPath := some p, ignoreCodes := codes,
        executable := p, cmd := buildCmd p codes, builtCmd := true } := by
    show (if p.toList.isEmpty then
            ({ shellcheckPath := some p, ignoreCodes := [],
               executable := classExecutable, cmd := classCmd,
               builtCmd := false } : LinterState)
          else
            { shellcheckPath := some p, ignoreCodes := codes,
              executable := p, cmd := buildCmd p codes, builtCmd := true })
        = { shellcheckPath := some p, ignoreCodes := codes,
            executable := p, cmd := buildCmd p codes, builtCmd := true }
    rw [he]
    simp
  exact ⟨⟨rfl, rfl⟩, by rw [hi]; exact ⟨rfl, rfl⟩⟩

/-- C9 (witness): a concrete successful construction overwrites both
attributes, and the disabled construction keeps the class defaults. -/
theorem c9_attribute_defaults_witness :
    ((initLinter none ["SC2086"]).executable = classExecutable
      ∧ (initLinter none ["SC2086"]).cmd = classCmd)
  ∧ ((initLinter (some "/usr/bin/shellcheck") ["SC2086"]).executable
        = "/usr/bin/shellcheck"
      ∧ (initLinter (some "/usr/bin/shellcheck") ["SC2086"]).cmd
        = buildCmd "/usr/bin/shellcheck" ["SC2086"]) :=
  c9_attribute_defaults ["SC2086"] "/usr/bin/shellcheck" (by decide)

/-- C10: the ignore-code sequence is not deduplicated: a valid code occurs in
the loaded sequence exactly as often as in the source array, the loaded
sequence is a sublist of the array (source order preserved), and every
occurrence contributes its own `-e` pair to the built command. -/
theorem c10_duplicates_retained (arr : List JVal) (p c : String)
    (hc : isValidCode c = true) :
    (validateCodes arr).count c = arr.countP (JVal.isStr c)
  ∧ ((validateCodes arr).map JVal.str).Sublist arr
  ∧ buildCmd p (validateCodes arr)
      = [p, "-f", "gcc", "-"]
        ++ (validateCodes arr).flatMap (fun code => ["-e", code]) :=
  ⟨validateCodes_count arr c hc, validateCodes_map_str_sublist arr,
   foldl_extend_pairs (validateCodes arr) [p, "-f", "gcc", "-"]⟩

/-- C10 (witness): an array holding the valid code `SC2086` twice loads both
occurrences, and the built command carries two `-e SC2086` pairs. -/
theorem c10_duplicates_retained_witness :
    ((validateCodes [JVal.str "SC2086", JVal.num 1, JVal.str "SC2086"]).count "SC2086"
        = [JVal.str "SC2086", JVal.num 1, JVal.str "SC2086"].countP (JVal.isStr "SC2086")
      ∧ (((validateCodes [JVal.str "SC2086", JVal.num 1, JVal.str "SC2086"]).map
            JVal.str)).Sublist [JVal.str "SC2086", JVal.num 1, JVal.str "SC2086"]
      ∧ buildCmd "/usr/bin/shellcheck"
            (validateCodes [JVal.str "SC2086", JVal.num 1, JVal.str "SC2086"])
          = ["/usr/bin/shellcheck", "-f", "gcc", "-"]
            ++ (validateCodes [JVal.str "SC2086", JVal.num 1,
                  JVal.str "SC2086"]).flatMap (fun code => ["-e", code]))
  ∧ buildCmd "/usr/bin/shellcheck"
        (validateCodes [JVal.str "SC2086", JVal.num 1, JVal.str "SC2086"])
      = ["/usr/bin/shellcheck", "-f", "gcc", "-", "-e", "SC2086", "-e", "SC2086"] :=
  ⟨c10_duplicates_retained [JVal.str "SC2086", JVal.num 1, JVal.str "SC2086"]
     "/usr/bin/shellcheck" "SC2086" (by decide),
   by decide⟩

end ShellCheckPlugin
